import Mathlib

/-!
Shallow embedding of the wallet ledger and transfer engine of the repository
(backend/src/services/walletService.js together with the MySQL schema in
database/schema.sql and the configuration constants in config/constants.js).

Modelling conventions:
- monetary values (DECIMAL(15,2) in the store, JS numbers in the service) are
  modelled as integers; every amount of the specification scenarios is
  integral, and integral amounts always satisfy the two-decimal regex check
  of validateAmount, so that branch of the source can never fire here;
- uuids (transaction ids, idempotency keys, OTP reference ids) are modelled
  as natural numbers supplied by the caller, mirroring uuidv4 outputs;
- time is an abstract natural-number clock passed explicitly (now for OTP
  expiry comparisons, today for the daily-limit calendar date);
- the payment gateway is an external collaborator whose outcome for one call
  is passed in as a value of GatewayOutcome (success result, failure result,
  or an exceptional failure such as a timeout of the call itself);
- each service operation returns the pair of its result (Except over the
  distinct throw sites of the source) and the committed database state; a
  thrown error inside an open transaction rolls that transaction back, so the
  returned state reflects exactly what the source leaves committed;
- the MySQL constraints that the source relies on are part of the store
  model: chk_positive_balance on wallets, chk_positive_amount and the UNIQUE
  constraints on transaction_id and idempotency_key on transactions; a write
  violating one of them fails and aborts the enclosing atomic unit.
-/

/-- Configuration constants from backend/src/config/constants.js; every field
is environment-configurable there, with these defaults. -/
structure Config where
  minTxn : Int
  maxTxn : Int
  dailyTransferLimit : Int
  dailyAddMoneyLimit : Int
  otpValidityMinutes : Nat
deriving DecidableEq

/-- Default values of the configuration constants. -/
def defaultConfig : Config :=
  { minTxn := 100, maxTxn := 200000
    dailyTransferLimit := 500000, dailyAddMoneyLimit := 500000
    otpValidityMinutes := 5 }

inductive TxnType
  | addMoneyT
  | transferDebit
  | transferCredit
deriving DecidableEq

inductive TxnStatus
  | pending
  | success
  | failed
deriving DecidableEq

inductive PayMethod
  | upi
  | card
  | netBanking
deriving DecidableEq

/-- Distinct throw sites and store-constraint failures of walletService.js. -/
inductive WErr
  | walletNotFound
  | belowMin
  | aboveMax
  | badPrecision
  | dailyAddLimit
  | dailyTransferLimit
  | recipientNotFound
  | selfTransfer
  | insufficientBalance
  | invalidOtp
  | uniqueViolation
  | checkViolation
  | gatewayDown
deriving DecidableEq

/-- Outcome of one call to the external payment gateway: a reported success,
a reported failure (both carrying the gateway message), or an exceptional
failure of the call itself (timeout, rejected promise). -/
inductive GatewayOutcome
  | success : String → GatewayOutcome
  | failure : String → GatewayOutcome
  | exn
deriving DecidableEq

/-- Row of the users table (the fields the wallet service reads). -/
structure UserRow where
  id : Nat
  email : String
  isActive : Bool
deriving DecidableEq

/-- Row of the wallets table. -/
structure WalletRow where
  userId : Nat
  balance : Int
  currency : String
deriving DecidableEq

/-- Row of the transactions table (the ledger). The JSON metadata column is
not modelled; no claim depends on it. -/
structure TxnRow where
  txnId : Nat
  idemKey : Option Nat
  userId : Nat
  ttype : TxnType
  amount : Int
  balanceBefore : Int
  balanceAfter : Int
  status : TxnStatus
  payMethod : Option PayMethod
  counterpartyUserId : Option Nat
  counterpartyTxnId : Option Nat
  failureReason : Option String
deriving DecidableEq

/-- Row of the otps table. Note that the table stores neither the amount nor
the recipient the OTP was requested for. -/
structure OtpRow where
  oid : Nat
  userId : Nat
  code : Nat
  refId : Nat
  isUsed : Bool
  expiresAt : Nat
deriving DecidableEq

/-- Row of the daily_limits table, unique per (userId, day). -/
structure LimitRow where
  userId : Nat
  day : Nat
  totalAdded : Int
  totalTransferred : Int
deriving DecidableEq

/-- The persistent store: the five tables the wallet service touches. -/
structure DB where
  users : List UserRow
  wallets : List WalletRow
  txns : List TxnRow
  otps : List OtpRow
  limits : List LimitRow
deriving DecidableEq

/-- SELECT ... FROM wallets WHERE user_id = ? (first matching row). -/
def findWallet (db : DB) (uid : Nat) : Option WalletRow :=
  db.wallets.find? (fun w => w.userId == uid)

/-- SELECT id, ... FROM users WHERE email = ? AND is_active = TRUE. -/
def findUserByEmail (db : DB) (email : String) : Option UserRow :=
  db.users.find? (fun u => u.email == email && u.isActive)

/-- Effect of UPDATE wallets SET balance = ? WHERE user_id = ? on the row
list: every matching row takes the new balance. -/
def setWalletRows (l : List WalletRow) (uid : Nat) (b : Int) : List WalletRow :=
  l.map (fun w => if w.userId == uid then { w with balance := b } else w)

/-- UPDATE wallets SET balance = ? WHERE user_id = ?, subject to the
chk_positive_balance CHECK constraint of the schema: a write of a negative
balance fails and aborts the enclosing atomic unit. -/
def setWalletBalance (db : DB) (uid : Nat) (b : Int) : Except WErr DB :=
  if b < 0 then .error .checkViolation
  else .ok { db with wallets := setWalletRows db.wallets uid b }

/-- INSERT INTO transactions, subject to chk_positive_amount and the UNIQUE
constraints on transaction_id and idempotency_key (NULL keys never clash). -/
def insertTxn (db : DB) (t : TxnRow) : Except WErr DB :=
  if !(decide (0 < t.amount)) then .error .checkViolation
  else if db.txns.any (fun u => u.txnId == t.txnId) then .error .uniqueViolation
  else if t.idemKey.isSome && db.txns.any (fun u => u.idemKey == t.idemKey) then
    .error .uniqueViolation
  else .ok { db with txns := db.txns ++ [t] }

/-- UPDATE transactions SET status = SUCCESS, balance_after = ? WHERE
transaction_id = ? (the metadata column is not modelled). -/
def updateTxnSuccess (db : DB) (tid : Nat) (newBalance : Int) : DB :=
  { db with txns := db.txns.map (fun t =>
      if t.txnId == tid then
        { t with status := .success, balanceAfter := newBalance } else t) }

/-- UPDATE transactions SET status = FAILED, failure_reason = ? WHERE
transaction_id = ?. -/
def updateTxnFailed (db : DB) (tid : Nat) (msg : String) : DB :=
  { db with txns := db.txns.map (fun t =>
      if t.txnId == tid then
        { t with status := .failed, failureReason := some msg } else t) }

/-- SELECT ... FROM daily_limits WHERE user_id = ? AND date = ?. -/
def dailyRow (db : DB) (uid day : Nat) : Option LimitRow :=
  db.limits.find? (fun r => r.userId == uid && r.day == day)

/-- INSERT INTO daily_limits (user_id, date, total_added) VALUES (?,?,?)
ON DUPLICATE KEY UPDATE total_added = total_added + ?. -/
def updateDailyAdded (db : DB) (uid day : Nat) (a : Int) : DB :=
  match dailyRow db uid day with
  | some _ => { db with limits := db.limits.map (fun r =>
      if r.userId == uid && r.day == day then
        { r with totalAdded := r.totalAdded + a } else r) }
  | none => { db with limits := db.limits ++ [⟨uid, day, a, 0⟩] }

/-- INSERT INTO daily_limits (user_id, date, total_transferred) VALUES (?,?,?)
ON DUPLICATE KEY UPDATE total_transferred = total_transferred + ?. -/
def updateDailyTransferred (db : DB) (uid day : Nat) (a : Int) : DB :=
  match dailyRow db uid day with
  | some _ => { db with limits := db.limits.map (fun r =>
      if r.userId == uid && r.day == day then
        { r with totalTransferred := r.totalTransferred + a } else r) }
  | none => { db with limits := db.limits ++ [⟨uid, day, 0, a⟩] }

/-- validateAmount of walletService.js: minimum bound, then maximum bound.
The source additionally rejects amounts whose decimal string has more than
two decimal places; monetary values are modelled as integers here, and every
integral amount passes that regex, so the badPrecision throw site is
unreachable in this model and the branch is omitted. -/
def validateAmount (cfg : Config) (a : Int) : Except WErr Unit :=
  if a < cfg.minTxn then .error .belowMin
  else if cfg.maxTxn < a then .error .aboveMax
  else .ok ()

/-- checkDailyAddMoneyLimit: rejects when todays total_added plus the amount
strictly exceeds the daily add-money ceiling. -/
def checkDailyAddMoneyLimit (cfg : Config) (db : DB) (uid day : Nat)
    (a : Int) : Except WErr Unit :=
  let total := match dailyRow db uid day with
    | some r => r.totalAdded
    | none => 0
  if cfg.dailyAddMoneyLimit < total + a then .error .dailyAddLimit else .ok ()

/-- checkDailyTransferLimit: rejects when todays total_transferred plus the
amount strictly exceeds the daily transfer ceiling. -/
def checkDailyTransferLimit (cfg : Config) (db : DB) (uid day : Nat)
    (a : Int) : Except WErr Unit :=
  let total := match dailyRow db uid day with
    | some r => r.totalTransferred
    | none => 0
  if cfg.dailyTransferLimit < total + a then .error .dailyTransferLimit
  else .ok ()

/-- Result shape shared by addMoney, transfer and the idempotency cache hit:
success flag, message, the referenced ledger entry id with its amount, the
reported balance, the entry status, and the duplicate marker (true exactly on
the cached path of checkIdempotency). -/
structure OpResult where
  success : Bool
  message : String
  txnId : Nat
  amount : Int
  balance : Int
  status : TxnStatus
  isDuplicate : Bool
deriving DecidableEq

/-- Cached result that checkIdempotency builds from a stored ledger row:
success mirrors the stored status and the row id, amount, final balance and
status are echoed back with the duplicate marker set. -/
def cachedResultOf (t : TxnRow) : OpResult :=
  { success := t.status == .success
    message := "Duplicate request - returning cached response"
    txnId := t.txnId, amount := t.amount, balance := t.balanceAfter
    status := t.status, isDuplicate := true }

/-- checkIdempotency of walletService.js: with no key it always proceeds;
otherwise the first ledger row carrying the key is returned as a cached
result, with no side effect. -/
def checkIdempotency (db : DB) (key : Option Nat) : Option OpResult :=
  match key with
  | none => none
  | some k =>
    match db.txns.find? (fun t => t.idemKey == some k) with
    | none => none
    | some t => some (cachedResultOf t)

/-- getBalance of walletService.js; read-only. -/
def getBalance (db : DB) (uid : Nat) : Except WErr (Int × String) :=
  match findWallet db uid with
  | none => .error .walletNotFound
  | some w => .ok (w.balance, w.currency)

/-- Finalization half of addMoney (source lines 92-158): runs after atomic
unit 1 committed the PENDING entry and after the gateway call returned, in a
second atomic unit. It receives the balance remembered from the read in
atomic unit 1 (the source does not re-read the wallet here) and the gateway
outcome. On a gateway exception the source only rolls back the (empty)
second unit and rethrows, leaving the PENDING entry committed. -/
def addMoneyFinalize (gw : GatewayOutcome) (uid : Nat) (a : Int)
    (txnId : Nat) (currentBalance : Int) (today : Nat) (db : DB) :
    Except WErr OpResult × DB :=
  match gw with
  | .success msg =>
    let newBalance := currentBalance + a
    match setWalletBalance db uid newBalance with
    | .error e => (.error e, db)
    | .ok db2 =>
      let db3 := updateTxnSuccess db2 txnId newBalance
      let db4 := updateDailyAdded db3 uid today a
      (.ok { success := true, message := msg, txnId := txnId, amount := a
             balance := newBalance, status := .success, isDuplicate := false },
       db4)
  | .failure msg =>
    let db2 := updateTxnFailed db txnId msg
    (.ok { success := false, message := msg, txnId := txnId, amount := a
           balance := currentBalance, status := .failed, isDuplicate := false },
     db2)
  | .exn => (.error .gatewayDown, db)

/-- The PENDING entry addMoney writes in atomic unit 1, recording
balance_before = balance_after = the current balance. -/
def pendingAddRow (key : Option Nat) (uid : Nat) (a currentBalance : Int)
    (m : PayMethod) (txnId : Nat) : TxnRow :=
  { txnId := txnId, idemKey := key, userId := uid, ttype := .addMoneyT
    amount := a, balanceBefore := currentBalance
    balanceAfter := currentBalance, status := .pending, payMethod := some m
    counterpartyUserId := none, counterpartyTxnId := none
    failureReason := none }

/-- addMoney of walletService.js: amount validation, daily-limit check,
idempotency check, atomic unit 1 (locked read of the wallet, PENDING insert,
commit), the gateway call outside any lock, then finalization in atomic
unit 2. -/
def addMoney (cfg : Config) (gw : GatewayOutcome) (today : Nat) (uid : Nat)
    (a : Int) (m : PayMethod) (key : Option Nat) (txnId : Nat) (db : DB) :
    Except WErr OpResult × DB :=
  match validateAmount cfg a with
  | .error e => (.error e, db)
  | .ok _ =>
  match checkDailyAddMoneyLimit cfg db uid today a with
  | .error e => (.error e, db)
  | .ok _ =>
  match checkIdempotency db key with
  | some r => (.ok r, db)
  | none =>
  match findWallet db uid with
  | none => (.error .walletNotFound, db)
  | some w =>
    match insertTxn db (pendingAddRow key uid a w.balance m txnId) with
    | .error e => (.error e, db)
    | .ok db1 => addMoneyFinalize gw uid a txnId w.balance today db1

/-- Next auto-increment id for the otps table. -/
def nextOtpId (db : DB) : Nat :=
  (db.otps.map (fun o => o.oid)).foldr Nat.max 0 + 1

/-- generateTransferOTP of walletService.js: amount validation, recipient
resolution, self-transfer rejection, advisory sender-balance check, advisory
daily-transfer-limit check, then insertion of the OTP row. The row stores
neither the amount nor the recipient. The result carries the reference id
and the recipient name. -/
def generateTransferOTP (cfg : Config) (now today : Nat) (uid : Nat)
    (toEmail : String) (a : Int) (code ref : Nat) (db : DB) :
    Except WErr (Nat × String) × DB :=
  match validateAmount cfg a with
  | .error e => (.error e, db)
  | .ok _ =>
  match findUserByEmail db toEmail with
  | none => (.error .recipientNotFound, db)
  | some recip =>
    if recip.id == uid then (.error .selfTransfer, db)
    else
      match findWallet db uid with
      | none => (.error .insufficientBalance, db)
      | some w =>
        if w.balance < a then (.error .insufficientBalance, db)
        else
          match checkDailyTransferLimit cfg db uid today a with
          | .error e => (.error e, db)
          | .ok _ =>
            let row : OtpRow :=
              { oid := nextOtpId db, userId := uid, code := code, refId := ref
                isUsed := false
                expiresAt := now + cfg.otpValidityMinutes * 60000 }
            (.ok (ref, recip.email), { db with otps := db.otps ++ [row] })

/-- The TRANSFER_DEBIT entry the transfer writes for the sender: amount,
balances around the debit, counterparty set to the recipient, counterparty
entry id set to the credit entry, carrying the idempotency key. -/
def debitRowOf (key : Option Nat) (uid rid : Nat) (a sb : Int)
    (dId cId : Nat) : TxnRow :=
  { txnId := dId, idemKey := key, userId := uid, ttype := .transferDebit
    amount := a, balanceBefore := sb, balanceAfter := sb - a
    status := .success, payMethod := none
    counterpartyUserId := some rid, counterpartyTxnId := some cId
    failureReason := none }

/-- The TRANSFER_CREDIT entry the transfer writes for the recipient,
pointing back at the debit entry; it carries no idempotency key. -/
def creditRowOf (uid rid : Nat) (a rb : Int) (dId cId : Nat) : TxnRow :=
  { txnId := cId, idemKey := none, userId := rid, ttype := .transferCredit
    amount := a, balanceBefore := rb, balanceAfter := rb + a
    status := .success, payMethod := none
    counterpartyUserId := some uid, counterpartyTxnId := some dId
    failureReason := none }

/-- SELECT id FROM otps WHERE user_id = ? AND reference_id = ? AND
otp_code = ? AND is_used = FALSE AND expires_at > NOW() (first match). -/
def otpLookup (db : DB) (now uid ref code : Nat) : Option OtpRow :=
  db.otps.find? (fun o =>
    o.userId == uid && o.refId == ref && o.code == code
      && o.isUsed == false && decide (now < o.expiresAt))

/-- UPDATE otps SET is_used = TRUE WHERE id = ?. -/
def markOtpUsed (db : DB) (oid : Nat) : DB :=
  { db with otps := db.otps.map (fun o =>
      if o.oid == oid then { o with isUsed := true } else o) }

/-- transfer of walletService.js: OTP validation, idempotency check, then one
atomic unit (recipient resolution, locked read of both wallets in ascending
id order, sufficiency check, both balance writes, debit and credit inserts
pointing at each other, OTP consumption, daily-limit increment, commit). Any
error inside the unit rolls the whole unit back. The source never compares
the recipient against the sender here and never validates the amount. -/
def transfer (cfg : Config) (now today : Nat) (uid : Nat) (toEmail : String)
    (a : Int) (code ref : Nat) (key : Option Nat) (debitId creditId : Nat)
    (db : DB) : Except WErr OpResult × DB :=
  match otpLookup db now uid ref code with
  | none => (.error .invalidOtp, db)
  | some o =>
  match checkIdempotency db key with
  | some r => (.ok r, db)
  | none =>
  match findUserByEmail db toEmail with
  | none => (.error .recipientNotFound, db)
  | some recip =>
    match findWallet db uid, findWallet db recip.id with
    | some sw, some rw =>
      if sw.balance < a then (.error .insufficientBalance, db)
      else
        let newSenderBalance := sw.balance - a
        let newRecipientBalance := rw.balance + a
        match setWalletBalance db uid newSenderBalance with
        | .error e => (.error e, db)
        | .ok db1 =>
        match setWalletBalance db1 recip.id newRecipientBalance with
        | .error e => (.error e, db)
        | .ok db2 =>
        match insertTxn db2
            (debitRowOf key uid recip.id a sw.balance debitId creditId) with
        | .error e => (.error e, db)
        | .ok db3 =>
        match insertTxn db3
            (creditRowOf uid recip.id a rw.balance debitId creditId) with
        | .error e => (.error e, db)
        | .ok db4 =>
          let db5 := markOtpUsed db4 o.oid
          let db6 := updateDailyTransferred db5 uid today a
          (.ok { success := true, message := "Transfer successful",
                 txnId := debitId, amount := a, balance := newSenderBalance
                 status := .success, isDuplicate := false }, db6)
    | _, _ => (.error .walletNotFound, db)

/-- Amount bound applied by the POST /transfer HTTP route
(backend/src/routes/walletRoutes.js, isFloat between 100 and 200000); the
service-level transfer itself applies no such bound. -/
def routeTransferAmountOk (a : Int) : Bool := 100 ≤ a && a ≤ 200000

instance {ε α : Type} [DecidableEq ε] [DecidableEq α] : DecidableEq (Except ε α) :=
  fun a b =>
    match a, b with
    | .error e, .error f =>
      if h : e = f then .isTrue (congrArg Except.error h)
      else .isFalse (fun c => h (Except.error.inj c))
    | .ok x, .ok y =>
      if h : x = y then .isTrue (congrArg Except.ok h)
      else .isFalse (fun c => h (Except.ok.inj c))
    | .error _, .ok _ => .isFalse (fun c => Except.noConfusion c)
    | .ok _, .error _ => .isFalse (fun c => Except.noConfusion c)

/-- States reachable from user onboarding (each user starts with a wallet of
balance 0; the ledger, OTP and daily-limit tables start empty) by any
sequence of the wallet-service operations, each run to completion. The
read-only getBalance never changes the store, so it needs no constructor.
Reference ids in generateTransferOTP are produced by uuidv4, modelled by the
freshness side condition of that step. -/
inductive Reachable (cfg : Config) : DB → Prop
  | init (db : DB)
      (hw : ∀ w ∈ db.wallets, w.balance = 0)
      (ht : db.txns = []) (ho : db.otps = []) (hl : db.limits = []) :
      Reachable cfg db
  | addMoneyStep {db : DB} (gw : GatewayOutcome) (today uid : Nat) (a : Int)
      (m : PayMethod) (key : Option Nat) (txnId : Nat) :
      Reachable cfg db →
      Reachable cfg (addMoney cfg gw today uid a m key txnId db).2
  | genOtpStep {db : DB} (now today uid : Nat) (toEmail : String) (a : Int)
      (code ref : Nat) :
      Reachable cfg db →
      (∀ o ∈ db.otps, o.refId ≠ ref) →
      Reachable cfg (generateTransferOTP cfg now today uid toEmail a code ref db).2
  | transferStep {db : DB} (now today uid : Nat) (toEmail : String) (a : Int)
      (code ref : Nat) (key : Option Nat) (debitId creditId : Nat) :
      Reachable cfg db →
      Reachable cfg (transfer cfg now today uid toEmail a code ref key debitId creditId db).2

/-- Pairing of a TRANSFER_DEBIT entry with its TRANSFER_CREDIT entry:
identical amount, owner and counterparty swapped, and mutual
counterparty_transaction_id pointers. -/
def pairedWith (t c : TxnRow) : Prop :=
  c.ttype = .transferCredit ∧ c.amount = t.amount ∧
  t.counterpartyUserId = some c.userId ∧ c.counterpartyUserId = some t.userId ∧
  t.counterpartyTxnId = some c.txnId ∧ c.counterpartyTxnId = some t.txnId

instance (t c : TxnRow) : Decidable (pairedWith t c) := by
  unfold pairedWith; infer_instance

/-- Combined store invariant maintained by every wallet-service operation:
non-negative balances, globally unique ledger entry ids, unique OTP
reference ids, and every TRANSFER_DEBIT entry having a paired
TRANSFER_CREDIT entry. -/
def StoreInv (db : DB) : Prop :=
  (∀ w ∈ db.wallets, 0 ≤ w.balance) ∧
  db.txns.Pairwise (fun a b => a.txnId ≠ b.txnId) ∧
  db.otps.Pairwise (fun a b => a.refId ≠ b.refId) ∧
  (∀ t ∈ db.txns, t.ttype = .transferDebit → ∃ c ∈ db.txns, pairedWith t c)

/-- Two members of a list with pairwise-distinct keys and equal keys are the
same member. -/
theorem pairwise_key_unique {α κ : Type} (key : α → κ) {l : List α}
    (hp : l.Pairwise (fun a b => key a ≠ key b)) {x y : α}
    (hx : x ∈ l) (hy : y ∈ l) (hk : key x = key y) : x = y := by
  induction l with
  | nil => cases hx
  | cons a t ih =>
    cases hp with
    | cons ha hp =>
      cases hx with
      | head =>
        cases hy with
        | head => rfl
        | tail _ hy => exact absurd hk (ha y hy)
      | tail _ hx =>
        cases hy with
        | head => exact absurd hk.symm (ha x hx)
        | tail _ hy => exact ih hp hx hy

theorem setWalletBalance_ok {db : DB} {uid : Nat} {b : Int} {db2 : DB}
    (h : setWalletBalance db uid b = .ok db2) :
    ¬ b < 0 ∧ db2 = { db with wallets := setWalletRows db.wallets uid b } := by
  unfold setWalletBalance at h
  split at h
  · exact absurd h (by simp)
  · exact ⟨by assumption, (Except.ok.inj h).symm⟩

theorem insertTxn_ok {db : DB} {t : TxnRow} {db2 : DB}
    (h : insertTxn db t = .ok db2) :
    0 < t.amount ∧ (∀ u ∈ db.txns, u.txnId ≠ t.txnId) ∧
      db2 = { db with txns := db.txns ++ [t] } := by
  unfold insertTxn at h
  split at h
  · exact absurd h (by simp)
  · split at h
    · exact absurd h (by simp)
    · split at h
      · exact absurd h (by simp)
      · refine ⟨?_, ?_, (Except.ok.inj h).symm⟩
        · have hb : ¬ (!(decide (0 < t.amount))) = true := by assumption
          simpa using hb
        · have hb : ¬ (db.txns.any (fun u => u.txnId == t.txnId)) = true := by
            assumption
          simp only [List.any_eq_true, not_exists, not_and] at hb
          intro u hu
          have := hb u hu
          simpa using this

@[simp] theorem updateTxnSuccess_wallets (db : DB) (tid : Nat) (nb : Int) :
    (updateTxnSuccess db tid nb).wallets = db.wallets := rfl

@[simp] theorem updateTxnSuccess_otps (db : DB) (tid : Nat) (nb : Int) :
    (updateTxnSuccess db tid nb).otps = db.otps := rfl

@[simp] theorem updateTxnSuccess_limits (db : DB) (tid : Nat) (nb : Int) :
    (updateTxnSuccess db tid nb).limits = db.limits := rfl

@[simp] theorem updateTxnFailed_wallets (db : DB) (tid : Nat) (msg : String) :
    (updateTxnFailed db tid msg).wallets = db.wallets := rfl

@[simp] theorem updateTxnFailed_otps (db : DB) (tid : Nat) (msg : String) :
    (updateTxnFailed db tid msg).otps = db.otps := rfl

@[simp] theorem markOtpUsed_wallets (db : DB) (oid : Nat) :
    (markOtpUsed db oid).wallets = db.wallets := rfl

@[simp] theorem markOtpUsed_txns (db : DB) (oid : Nat) :
    (markOtpUsed db oid).txns = db.txns := rfl

@[simp] theorem updateDailyAdded_wallets (db : DB) (uid day : Nat) (a : Int) :
    (updateDailyAdded db uid day a).wallets = db.wallets := by
  unfold updateDailyAdded; split <;> rfl

@[simp] theorem updateDailyAdded_txns (db : DB) (uid day : Nat) (a : Int) :
    (updateDailyAdded db uid day a).txns = db.txns := by
  unfold updateDailyAdded; split <;> rfl

@[simp] theorem updateDailyAdded_otps (db : DB) (uid day : Nat) (a : Int) :
    (updateDailyAdded db uid day a).otps = db.otps := by
  unfold updateDailyAdded; split <;> rfl

@[simp] theorem updateDailyTransferred_wallets (db : DB) (uid day : Nat) (a : Int) :
    (updateDailyTransferred db uid day a).wallets = db.wallets := by
  unfold updateDailyTransferred; split <;> rfl

@[simp] theorem updateDailyTransferred_txns (db : DB) (uid day : Nat) (a : Int) :
    (updateDailyTransferred db uid day a).txns = db.txns := by
  unfold updateDailyTransferred; split <;> rfl

@[simp] theorem updateDailyTransferred_otps (db : DB) (uid day : Nat) (a : Int) :
    (updateDailyTransferred db uid day a).otps = db.otps := by
  unfold updateDailyTransferred; split <;> rfl

/-- Functions on ledger rows that keep the identity and pairing fields. -/
def pairKeeping (f : TxnRow → TxnRow) : Prop :=
  ∀ x, (f x).txnId = x.txnId ∧ (f x).ttype = x.ttype ∧ (f x).amount = x.amount ∧
    (f x).userId = x.userId ∧ (f x).counterpartyUserId = x.counterpartyUserId ∧
    (f x).counterpartyTxnId = x.counterpartyTxnId

theorem statusSuccessKeeps (tid : Nat) (nb : Int) :
    pairKeeping (fun t => if t.txnId == tid then
      { t with status := TxnStatus.success, balanceAfter := nb } else t) := by
  intro x
  by_cases h : x.txnId == tid <;> simp [h]

theorem statusFailedKeeps (tid : Nat) (msg : String) :
    pairKeeping (fun t => if t.txnId == tid then
      { t with status := TxnStatus.failed, failureReason := some msg } else t) := by
  intro x
  by_cases h : x.txnId == tid <;> simp [h]

theorem pairedWith_of_pairKeeping {f : TxnRow → TxnRow} (hf : pairKeeping f)
    {t c : TxnRow} (h : pairedWith t c) : pairedWith (f t) (f c) := by
  obtain ⟨h1, h2, h3, h4, h5, h6⟩ := h
  obtain ⟨a1, a2, a3, a4, a5, a6⟩ := hf t
  obtain ⟨b1, b2, b3, b4, b5, b6⟩ := hf c
  refine ⟨?_, ?_, ?_, ?_, ?_, ?_⟩
  · rw [b2, h1]
  · rw [b3, a3, h2]
  · rw [a5, b4, h3]
  · rw [b5, a4, h4]
  · rw [a6, b1, h5]
  · rw [b6, a1, h6]

theorem pairing_map {f : TxnRow → TxnRow} (hf : pairKeeping f) {l : List TxnRow}
    (hp : ∀ t ∈ l, t.ttype = .transferDebit → ∃ c ∈ l, pairedWith t c) :
    ∀ t ∈ l.map f, t.ttype = .transferDebit → ∃ c ∈ l.map f, pairedWith t c := by
  intro t' ht' hdeb
  obtain ⟨t, ht, rfl⟩ := List.mem_map.mp ht'
  have hdt : t.ttype = .transferDebit := by rw [← (hf t).2.1]; exact hdeb
  obtain ⟨c, hc, hpair⟩ := hp t ht hdt
  exact ⟨f c, List.mem_map_of_mem f hc, pairedWith_of_pairKeeping hf hpair⟩

theorem ids_pairwise_map {f : TxnRow → TxnRow} (hf : pairKeeping f)
    {l : List TxnRow} (hp : l.Pairwise (fun a b => a.txnId ≠ b.txnId)) :
    (l.map f).Pairwise (fun a b => a.txnId ≠ b.txnId) := by
  rw [List.pairwise_map]
  refine hp.imp ?_
  intro a b hab
  rw [(hf a).1, (hf b).1]
  exact hab

theorem otps_pairwise_mark {db : DB} {oid : Nat}
    (hp : db.otps.Pairwise (fun a b => a.refId ≠ b.refId)) :
    (markOtpUsed db oid).otps.Pairwise (fun a b => a.refId ≠ b.refId) := by
  unfold markOtpUsed
  simp only []
  rw [List.pairwise_map]
  refine hp.imp ?_
  intro a b hab
  by_cases ha : a.oid == oid <;> by_cases hb : b.oid == oid <;>
    simp [ha, hb] <;> exact hab

theorem nonneg_setWalletRows {l : List WalletRow} {uid : Nat} {b : Int}
    (hb : ¬ b < 0) (hl : ∀ w ∈ l, 0 ≤ w.balance) :
    ∀ w ∈ setWalletRows l uid b, 0 ≤ w.balance := by
  intro w hw
  unfold setWalletRows at hw
  obtain ⟨x, hx, rfl⟩ := List.mem_map.mp hw
  by_cases h : x.userId == uid
  · simp only [h, if_true]
    exact not_lt.mp hb
  · simp only [h, if_false]
    exact hl x hx

theorem find_setWalletRows_self {l : List WalletRow} {uid : Nat} {b : Int}
    {w : WalletRow} (hw : l.find? (fun x => x.userId == uid) = some w) :
    (setWalletRows l uid b).find? (fun x => x.userId == uid)
      = some { w with balance := b } := by
  induction l with
  | nil => simp at hw
  | cons x t ih =>
    unfold setWalletRows
    simp only [List.map_cons]
    by_cases h : (x.userId == uid) = true
    · simp only [List.find?_cons, h, if_true] at hw ⊢
      cases hw
      rfl
    · have hf : (x.userId == uid) = false := by simpa using h
      simp only [List.find?_cons, hf, Bool.false_eq_true, if_false] at hw ⊢
      exact ih hw

theorem find_setWalletRows_other {l : List WalletRow} {uid v : Nat} {b : Int}
    (hne : v ≠ uid) :
    (setWalletRows l uid b).find? (fun x => x.userId == v)
      = l.find? (fun x => x.userId == v) := by
  induction l with
  | nil => rfl
  | cons x t ih =>
    unfold setWalletRows
    simp only [List.map_cons]
    by_cases h : (x.userId == uid) = true
    · have hx : x.userId = uid := by simpa using h
      have hxv : (x.userId == v) = false := by
        simp [hx]
        exact Ne.symm hne
      simp only [List.find?_cons, h, if_true, hxv, Bool.false_eq_true]
      exact ih
    · have hf : (x.userId == uid) = false := by simpa using h
      simp only [List.find?_cons, hf, Bool.false_eq_true, if_false]
      by_cases hv : (x.userId == v) = true
      · simp only [hv]
      · have hvf : (x.userId == v) = false := by simpa using hv
        simp only [hvf, Bool.false_eq_true]
        exact ih

theorem storeInv_frame {db db2 : DB} (hw : db2.wallets = db.wallets)
    (ht : db2.txns = db.txns) (ho : db2.otps = db.otps)
    (hI : StoreInv db) : StoreInv db2 := by
  obtain ⟨h1, h2, h3, h4⟩ := hI
  refine ⟨?_, ?_, ?_, ?_⟩
  · rw [hw]; exact h1
  · rw [ht]; exact h2
  · rw [ho]; exact h3
  · rw [ht]; exact h4

theorem inv_set {db : DB} {uid : Nat} {b : Int} {db1 : DB}
    (hI : StoreInv db) (h : setWalletBalance db uid b = .ok db1) :
    StoreInv db1 := by
  obtain ⟨hb, rfl⟩ := setWalletBalance_ok h
  obtain ⟨h1, h2, h3, h4⟩ := hI
  exact ⟨nonneg_setWalletRows hb h1, h2, h3, h4⟩

theorem inv_updateTxnSuccess {db : DB} {tid : Nat} {nb : Int}
    (hI : StoreInv db) : StoreInv (updateTxnSuccess db tid nb) := by
  obtain ⟨h1, h2, h3, h4⟩ := hI
  exact ⟨h1, ids_pairwise_map (statusSuccessKeeps tid nb) h2, h3,
    pairing_map (statusSuccessKeeps tid nb) h4⟩

theorem inv_updateTxnFailed {db : DB} {tid : Nat} {msg : String}
    (hI : StoreInv db) : StoreInv (updateTxnFailed db tid msg) := by
  obtain ⟨h1, h2, h3, h4⟩ := hI
  exact ⟨h1, ids_pairwise_map (statusFailedKeeps tid msg) h2, h3,
    pairing_map (statusFailedKeeps tid msg) h4⟩

theorem inv_markOtpUsed {db : DB} {oid : Nat}
    (hI : StoreInv db) : StoreInv (markOtpUsed db oid) := by
  obtain ⟨h1, h2, h3, h4⟩ := hI
  exact ⟨h1, h2, otps_pairwise_mark h3, h4⟩

theorem inv_append_txn {db : DB} {t : TxnRow}
    (hI : StoreInv db) (hfresh : ∀ u ∈ db.txns, u.txnId ≠ t.txnId)
    (ht : t.ttype ≠ .transferDebit) :
    StoreInv { db with txns := db.txns ++ [t] } := by
  obtain ⟨h1, h2, h3, h4⟩ := hI
  refine ⟨h1, ?_, h3, ?_⟩
  · rw [List.pairwise_append]
    refine ⟨h2, by simp, ?_⟩
    intro x hx y hy
    rw [List.mem_singleton] at hy
    subst hy
    exact hfresh x hx
  · intro x hx hdeb
    rcases List.mem_append.mp hx with hx | hx
    · obtain ⟨c, hc, hpc⟩ := h4 x hx hdeb
      exact ⟨c, List.mem_append_left _ hc, hpc⟩
    · rw [List.mem_singleton] at hx
      subst hx
      exact absurd hdeb ht

theorem inv_finalize (gw : GatewayOutcome) (uid : Nat) (a : Int)
    (tid : Nat) (cb : Int) (today : Nat) (db : DB) (hI : StoreInv db) :
    StoreInv (addMoneyFinalize gw uid a tid cb today db).2 := by
  unfold addMoneyFinalize
  split
  · dsimp only
    split
    · exact hI
    · rename_i db2 hset
      exact storeInv_frame (updateDailyAdded_wallets _ _ _ _)
        (updateDailyAdded_txns _ _ _ _) (updateDailyAdded_otps _ _ _ _)
        (inv_updateTxnSuccess (inv_set hI hset))
  · exact inv_updateTxnFailed hI
  · exact hI

theorem inv_addMoney (cfg : Config) (gw : GatewayOutcome) (today uid : Nat)
    (a : Int) (m : PayMethod) (key : Option Nat) (tid : Nat) (db : DB)
    (hI : StoreInv db) :
    StoreInv (addMoney cfg gw today uid a m key tid db).2 := by
  unfold addMoney
  split
  · exact hI
  split
  · exact hI
  split
  · exact hI
  split
  · exact hI
  rename_i w hw
  split
  · exact hI
  rename_i db1 hins
  obtain ⟨hamt, hfresh, rfl⟩ := insertTxn_ok hins
  exact inv_finalize _ _ _ _ _ _ _
    (inv_append_txn hI hfresh (by simp [pendingAddRow]))

theorem inv_genOtp (cfg : Config) (now today uid : Nat) (toEmail : String)
    (a : Int) (code ref : Nat) (db : DB) (hI : StoreInv db)
    (hfresh : ∀ o ∈ db.otps, o.refId ≠ ref) :
    StoreInv (generateTransferOTP cfg now today uid toEmail a code ref db).2 := by
  unfold generateTransferOTP
  split
  · exact hI
  split
  · exact hI
  rename_i recip hrecip
  split
  · exact hI
  split
  · exact hI
  rename_i w hw
  split
  · exact hI
  split
  · exact hI
  dsimp only
  obtain ⟨h1, h2, h3, h4⟩ := hI
  refine ⟨h1, h2, ?_, h4⟩
  rw [List.pairwise_append]
  refine ⟨h3, by simp, ?_⟩
  intro x hx y hy
  rw [List.mem_singleton] at hy
  subst hy
  exact hfresh x hx

theorem inv_transfer (cfg : Config) (now today uid : Nat) (toEmail : String)
    (a : Int) (code ref : Nat) (key : Option Nat) (dId cId : Nat) (db : DB)
    (hI : StoreInv db) :
    StoreInv (transfer cfg now today uid toEmail a code ref key dId cId db).2 := by
  unfold transfer
  split
  · exact hI
  rename_i o ho
  split
  · exact hI
  split
  · exact hI
  rename_i recip hrecip
  split
  · rename_i sw rw hsw hrw
    split
    · exact hI
    dsimp only
    split
    · exact hI
    rename_i db1 hset1
    split
    · exact hI
    rename_i db2 hset2
    split
    · exact hI
    rename_i db3 hins3
    split
    · exact hI
    rename_i db4 hins4
    obtain ⟨hamt2, hfresh4, rfl⟩ := insertTxn_ok hins4
    obtain ⟨hamt1, hfresh3, rfl⟩ := insertTxn_ok hins3
    obtain ⟨h1, h2, h3, h4⟩ := inv_set (inv_set hI hset1) hset2
    have hids : ((db2.txns ++ [debitRowOf key uid recip.id a sw.balance dId cId])
        ++ [creditRowOf uid recip.id a rw.balance dId cId]).Pairwise
        (fun x y => x.txnId ≠ y.txnId) := by
      rw [List.pairwise_append]
      refine ⟨?_, by simp, ?_⟩
      · rw [List.pairwise_append]
        refine ⟨h2, by simp, ?_⟩
        intro x hx y hy
        rw [List.mem_singleton] at hy
        subst hy
        exact hfresh3 x hx
      · intro x hx y hy
        rw [List.mem_singleton] at hy
        subst hy
        exact hfresh4 x hx
    have hpair : ∀ t ∈ ((db2.txns
          ++ [debitRowOf key uid recip.id a sw.balance dId cId])
          ++ [creditRowOf uid recip.id a rw.balance dId cId]),
        t.ttype = .transferDebit →
        ∃ c ∈ ((db2.txns ++ [debitRowOf key uid recip.id a sw.balance dId cId])
          ++ [creditRowOf uid recip.id a rw.balance dId cId]),
          pairedWith t c := by
      intro x hx hdeb
      rcases List.mem_append.mp hx with hx | hx
      · rcases List.mem_append.mp hx with hx | hx
        · obtain ⟨c, hc, hpc⟩ := h4 x hx hdeb
          exact ⟨c, List.mem_append_left _ (List.mem_append_left _ hc), hpc⟩
        · rw [List.mem_singleton] at hx
          subst hx
          refine ⟨creditRowOf uid recip.id a rw.balance dId cId,
            List.mem_append_right _ (List.mem_singleton.mpr rfl), ?_⟩
          exact ⟨rfl, rfl, rfl, rfl, rfl, rfl⟩
      · rw [List.mem_singleton] at hx
        subst hx
        simp [creditRowOf] at hdeb
    exact storeInv_frame (updateDailyTransferred_wallets _ _ _ _)
      (updateDailyTransferred_txns _ _ _ _)
      (updateDailyTransferred_otps _ _ _ _)
      (inv_markOtpUsed ⟨h1, hids, h3, hpair⟩)
  · exact hI

/-- Every reachable committed state satisfies the combined store invariant. -/
theorem reachable_inv {cfg : Config} {db : DB} (h : Reachable cfg db) :
    StoreInv db := by
  induction h with
  | init db hw ht ho hl =>
    refine ⟨?_, ?_, ?_, ?_⟩
    · intro w hww
      rw [hw w hww]
    · rw [ht]; exact List.Pairwise.nil
    · rw [ho]; exact List.Pairwise.nil
    · intro t htt
      rw [ht] at htt
      cases htt
  | addMoneyStep gw today uid a m key txnId _ ih =>
    exact inv_addMoney _ _ _ _ _ _ _ _ _ ih
  | genOtpStep now today uid toEmail a code ref _ hfresh ih =>
    exact inv_genOtp _ _ _ _ _ _ _ _ _ ih hfresh
  | transferStep now today uid toEmail a code ref key dId cId _ ih =>
    exact inv_transfer _ _ _ _ _ _ _ _ _ _ _ _ ih

/-- Demonstration state: two onboarded users with empty wallets. -/
def demoInit : DB :=
  { users := [⟨1, "a@x", true⟩, ⟨2, "b@x", true⟩]
    wallets := [⟨1, 0, "INR"⟩, ⟨2, 0, "INR"⟩]
    txns := [], otps := [], limits := [] }

/-- State after user 1 added 1000 through a successful gateway payment
(ledger entry id 100). -/
def demoFunded : DB :=
  (addMoney defaultConfig (.success "ok") 0 1 1000 .upi none 100 demoInit).2

/-- State after user 1 requested a transfer OTP for amount 100 to user 2 at
time 0 (code 555666, reference id 777, expiring at time 300000). -/
def demoOtp : DB :=
  (generateTransferOTP defaultConfig 0 0 1 "b@x" 100 555666 777 demoFunded).2

/-- A completed transfer of 100 from user 1 to user 2 with idempotency key 9
and entry ids 201 (debit) and 202 (credit). -/
def demoXfer : Except WErr OpResult × DB :=
  transfer defaultConfig 1 0 1 "b@x" 100 555666 777 (some 9) 201 202 demoOtp

theorem demoInit_reachable : Reachable defaultConfig demoInit :=
  .init demoInit (by decide) rfl rfl rfl

theorem demoFunded_reachable : Reachable defaultConfig demoFunded :=
  .addMoneyStep (.success "ok") 0 1 1000 .upi none 100 demoInit_reachable

theorem demoOtp_reachable : Reachable defaultConfig demoOtp :=
  .genOtpStep 0 0 1 "b@x" 100 555666 777 demoFunded_reachable (by decide)

theorem demoXfer_reachable : Reachable defaultConfig demoXfer.2 :=
  .transferStep 1 0 1 "b@x" 100 555666 777 (some 9) 201 202 demoOtp_reachable

theorem pair_err_ne_ok {e : WErr} {r : OpResult} {x y : DB} :
    ((Except.error e : Except WErr OpResult), x) = (.ok r, y) → False := by
  intro h
  have h1 := congrArg Prod.fst h
  simp at h1

theorem checkIdempotency_dup {db : DB} {key : Option Nat} {r : OpResult}
    (h : checkIdempotency db key = some r) : r.isDuplicate = true := by
  unfold checkIdempotency at h
  split at h
  · exact absurd h (by simp)
  · split at h
    · exact absurd h (by simp)
    · cases Option.some.inj h
      rfl

theorem otpLookup_some {db : DB} {now uid ref code : Nat} {o : OtpRow}
    (h : otpLookup db now uid ref code = some o) :
    o ∈ db.otps ∧ o.userId = uid ∧ o.refId = ref ∧ o.code = code ∧
      o.isUsed = false ∧ now < o.expiresAt := by
  unfold otpLookup at h
  have hm := List.mem_of_find?_eq_some h
  have hp := List.find?_some h
  simp only [Bool.and_eq_true, beq_iff_eq, decide_eq_true_eq] at hp
  exact ⟨hm, hp.1.1.1.1, hp.1.1.1.2, hp.1.1.2, hp.1.2, hp.2⟩

/-- A transfer whose OTP lookup fails rejects immediately with no effect. -/
theorem transfer_no_otp {cfg : Config} {now today uid : Nat}
    {toEmail : String} {a : Int} {code ref : Nat} {key : Option Nat}
    {dId cId : Nat} {db : DB}
    (h : otpLookup db now uid ref code = none) :
    transfer cfg now today uid toEmail a code ref key dId cId db
      = (.error .invalidOtp, db) := by
  unfold transfer
  rw [h]

/-- Every ok return of transfer, cached ones included, passed the OTP
lookup. -/
theorem transfer_ok_otp {cfg : Config} {now today uid : Nat}
    {toEmail : String} {a : Int} {code ref : Nat} {key : Option Nat}
    {dId cId : Nat} {db db2 : DB} {r : OpResult}
    (h : transfer cfg now today uid toEmail a code ref key dId cId db
      = (.ok r, db2)) :
    ∃ o, otpLookup db now uid ref code = some o := by
  unfold transfer at h
  split at h
  · exact (pair_err_ne_ok h).elim
  · rename_i o ho
    exact ⟨o, ho⟩

/-- Characterization of a genuine (non cached) successful transfer: the OTP
lookup succeeded, the idempotency check proceeded, the recipient resolved,
both wallets were found, the balance sufficed, and the committed state
carries the two balance writes, the debit and credit pair, and the consumed
OTP. -/
theorem transfer_ok_genuine
    {cfg : Config} {now today uid : Nat} {toEmail : String} {a : Int}
    {code ref : Nat} {key : Option Nat} {dId cId : Nat} {db : DB}
    {r : OpResult} {db2 : DB}
    (h : transfer cfg now today uid toEmail a code ref key dId cId db
      = (.ok r, db2))
    (hdup : r.isDuplicate = false) :
    ∃ o recip sw rw,
      otpLookup db now uid ref code = some o ∧
      checkIdempotency db key = none ∧
      findUserByEmail db toEmail = some recip ∧
      findWallet db uid = some sw ∧
      findWallet db recip.id = some rw ∧
      ¬ sw.balance < a ∧
      r = { success := true, message := "Transfer successful", txnId := dId
            amount := a, balance := sw.balance - a, status := .success
            isDuplicate := false } ∧
      db2.wallets = setWalletRows (setWalletRows db.wallets uid (sw.balance - a)) recip.id (rw.balance + a) ∧
      db2.otps = db.otps.map (fun x => if x.oid == o.oid then { x with isUsed := true } else x) ∧
      db2.txns = (db.txns ++ [debitRowOf key uid recip.id a sw.balance dId cId]) ++ [creditRowOf uid recip.id a rw.balance dId cId] := by
  unfold transfer at h
  split at h
  · exact (pair_err_ne_ok h).elim
  rename_i o ho
  split at h
  · rename_i c hc
    rw [Prod.mk.injEq] at h
    cases Except.ok.inj h.1
    exact absurd (checkIdempotency_dup hc) (by simp [hdup])
  rename_i hkey
  split at h
  · exact (pair_err_ne_ok h).elim
  rename_i recip hrecip
  split at h
  · rename_i sw rw hsw hrw
    split at h
    · exact (pair_err_ne_ok h).elim
    rename_i hbal
    dsimp only at h
    split at h
    · exact (pair_err_ne_ok h).elim
    rename_i dbA hset1
    split at h
    · exact (pair_err_ne_ok h).elim
    rename_i dbB hset2
    split at h
    · exact (pair_err_ne_ok h).elim
    rename_i db3 hins3
    split at h
    · exact (pair_err_ne_ok h).elim
    rename_i db4 hins4
    rw [Prod.mk.injEq] at h
    obtain ⟨h1, h2⟩ := h
    cases Except.ok.inj h1
    obtain ⟨-, -, rfl⟩ := insertTxn_ok hins4
    obtain ⟨-, -, rfl⟩ := insertTxn_ok hins3
    obtain ⟨-, rfl⟩ := setWalletBalance_ok hset2
    obtain ⟨-, rfl⟩ := setWalletBalance_ok hset1
    refine ⟨o, recip, sw, rw, ho, hkey, hrecip, hsw, hrw, hbal, rfl, ?_, ?_, ?_⟩
    · rw [← h2]
      simp
    · rw [← h2]
      simp [markOtpUsed]
    · rw [← h2]
      simp
  · exact (pair_err_ne_ok h).elim


/-- Result record of a genuine successful transfer. -/
def xferOkResult (dId : Nat) (a bal : Int) : OpResult :=
  { success := true, message := "Transfer successful", txnId := dId
    amount := a, balance := bal, status := .success, isDuplicate := false }

/-- A self transfer: user 1 redeems the OTP issued for a transfer to user 2
but names their own email as the recipient; transfer never rejects
recipient = sender. -/
def demoSelfXfer : Except WErr OpResult × DB :=
  transfer defaultConfig 1 0 1 "a@x" 100 555666 777 none 201 202 demoOtp

/-- C1 (amended): for every transfer that genuinely completes successfully
(returns success and is not a cached duplicate) on a reachable state, and
whose resolved recipient differs from the sender, the sender wallet balance
decreases by exactly the transfer amount, the recipient wallet balance
increases by exactly the transfer amount, and the sum of the two balances is
unchanged. The restriction to distinct recipient is forced: the service
accepts self transfers and they violate all three equalities. -/
theorem transfer_local_conservation
    (cfg : Config) (now today uid : Nat) (toEmail : String) (a : Int)
    (code ref : Nat) (key : Option Nat) (dId cId : Nat) (db : DB)
    (hreach : Reachable cfg db) (r : OpResult) (db2 : DB)
    (h : transfer cfg now today uid toEmail a code ref key dId cId db
      = (.ok r, db2))
    (hdup : r.isDuplicate = false)
    (recip : UserRow) (hrecip : findUserByEmail db toEmail = some recip)
    (hne : recip.id ≠ uid)
    (sw rcw : WalletRow)
    (hsw : findWallet db uid = some sw)
    (hrw : findWallet db recip.id = some rcw) :
    ∃ sw2 rw2 : WalletRow,
      findWallet db2 uid = some sw2 ∧ findWallet db2 recip.id = some rw2 ∧
      sw2.balance = sw.balance - a ∧ rw2.balance = rcw.balance + a ∧
      sw.balance + rcw.balance = sw2.balance + rw2.balance := by
  obtain ⟨o, recip2, sw2, rw2, ho, hkey, hrecip2, hsw2, hrw2, hbal, hr, hwal,
    hotps, htxns⟩ := transfer_ok_genuine h hdup
  rw [hrecip] at hrecip2
  cases Option.some.inj hrecip2
  rw [hsw] at hsw2
  cases Option.some.inj hsw2
  rw [hrw] at hrw2
  cases Option.some.inj hrw2
  refine ⟨{ sw with balance := sw.balance - a },
    { rcw with balance := rcw.balance + a }, ?_, ?_, rfl, rfl, by dsimp only; ring⟩
  · unfold findWallet
    rw [hwal]
    rw [find_setWalletRows_other (Ne.symm hne)]
    exact find_setWalletRows_self hsw
  · unfold findWallet
    rw [hwal]
    refine find_setWalletRows_self ?_
    rw [find_setWalletRows_other hne]
    exact hrw

/-- C1 counterexample: demoOtp is reachable and holds 1000 in the wallet of
user 1; the transfer operation accepts a self transfer redeeming the OTP
issued for user 2, reports success with the stale computed sender balance
900, and commits the single involved wallet at 1100 = 1000 + 100: the sender
balance does not decrease by the amount and the balance sum of the involved
wallets is not conserved. -/
theorem transfer_conservation_counterexample :
    Reachable defaultConfig demoOtp
  ∧ demoSelfXfer.1 = .ok (xferOkResult 201 100 900)
  ∧ findWallet demoOtp 1 = some ⟨1, 1000, "INR"⟩
  ∧ findWallet demoSelfXfer.2 1 = some ⟨1, 1100, "INR"⟩
  ∧ ¬ (1100 : Int) = 1000 - 100 :=
  ⟨demoOtp_reachable, by decide, by decide, by decide, by decide⟩

theorem transfer_local_conservation_witness :
    ∃ sw2 rw2 : WalletRow,
      findWallet demoXfer.2 1 = some sw2 ∧ findWallet demoXfer.2 2 = some rw2 ∧
      sw2.balance = 1000 - 100 ∧ rw2.balance = 0 + 100 ∧
      (1000 : Int) + 0 = sw2.balance + rw2.balance :=
  transfer_local_conservation defaultConfig 1 0 1 "b@x" 100 555666 777
    (some 9) 201 202 demoOtp demoOtp_reachable
    (xferOkResult 201 100 900)
    demoXfer.2 (by decide) (by decide)
    ⟨2, "b@x", true⟩ (by decide) (by decide)
    ⟨1, 1000, "INR"⟩ ⟨2, 0, "INR"⟩ (by decide) (by decide)

/-- C2: on every committed state reachable by any sequence of the
wallet-service operations (getBalance is read only and commits nothing),
every wallet balance is non negative: the pre-write sufficiency check of
transfer and the chk_positive_balance storage constraint together preserve
non negativity from the zero balances at onboarding. -/
theorem reachable_balances_nonneg (cfg : Config) (db : DB)
    (h : Reachable cfg db) : ∀ w ∈ db.wallets, 0 ≤ w.balance :=
  (reachable_inv h).1

theorem reachable_balances_nonneg_witness :
    (0 : Int) ≤ ((⟨1, 900, "INR"⟩ : WalletRow)).balance :=
  reachable_balances_nonneg defaultConfig demoXfer.2 demoXfer_reachable
    ⟨1, 900, "INR"⟩ (by decide)

/-- C4 (amended): a transfer succeeds only when an unused, unexpired OTP
with matching code exists for the (sender, referenceId) pair; the OTP row
stores neither the amount nor the recipient of the request it was issued
for, so neither is re-checked at redemption and a differing amount or
recipient is not rejected. -/
theorem transfer_requires_issued_otp
    (cfg : Config) (now today uid : Nat) (toEmail : String) (a : Int)
    (code ref : Nat) (key : Option Nat) (dId cId : Nat) (db db2 : DB)
    (r : OpResult)
    (h : transfer cfg now today uid toEmail a code ref key dId cId db
      = (.ok r, db2)) :
    ∃ o ∈ db.otps, o.userId = uid ∧ o.refId = ref ∧ o.code = code ∧
      o.isUsed = false ∧ now < o.expiresAt := by
  obtain ⟨o, ho⟩ := transfer_ok_otp h
  obtain ⟨hm, h1, h2, h3, h4, h5⟩ := otpLookup_some ho
  exact ⟨o, hm, h1, h2, h3, h4, h5⟩

/-- C4 counterexample: the OTP in demoOtp was issued for amount 100, yet a
transfer of 150 redeeming the same OTP succeeds: the declared amount is not
bound to the OTP. -/
theorem transfer_otp_amount_counterexample :
    (generateTransferOTP defaultConfig 0 0 1 "b@x" 100 555666 777 demoFunded).1
      = .ok (777, "b@x")
  ∧ (transfer defaultConfig 1 0 1 "b@x" 150 555666 777 none 201 202 demoOtp).1
      = .ok (xferOkResult 201 150 850)
  ∧ (150 : Int) ≠ 100 :=
  ⟨by decide, by decide, by decide⟩

theorem transfer_requires_issued_otp_witness :
    ∃ o ∈ demoOtp.otps, o.userId = 1 ∧ o.refId = 777 ∧ o.code = 555666 ∧
      o.isUsed = false ∧ 1 < o.expiresAt :=
  transfer_requires_issued_otp defaultConfig 1 0 1 "b@x" 100 555666 777
    (some 9) 201 202 demoOtp demoXfer.2
    (xferOkResult 201 100 900)
    (by decide)

/-- C5: in every reachable state, every TRANSFER_DEBIT ledger entry has
exactly one TRANSFER_CREDIT partner with identical amount, swapped owner and
counterparty user ids, and mutual counterparty entry id pointers. Both
entries are appended inside the one atomic unit of transfer, so no reachable
committed state contains a debit without its credit. -/
theorem debit_credit_paired (cfg : Config) (db : DB) (h : Reachable cfg db) :
    ∀ t ∈ db.txns, t.ttype = .transferDebit →
      ∃ c ∈ db.txns, pairedWith t c ∧
        ∀ c2 ∈ db.txns, pairedWith t c2 → c2 = c := by
  obtain ⟨-, hids, -, hpair⟩ := reachable_inv h
  intro t ht hdeb
  obtain ⟨c, hc, hpc⟩ := hpair t ht hdeb
  refine ⟨c, hc, hpc, ?_⟩
  intro c2 hc2 hpc2
  have h1 : t.counterpartyTxnId = some c.txnId := hpc.2.2.2.2.1
  have h2 : t.counterpartyTxnId = some c2.txnId := hpc2.2.2.2.2.1
  have hcc : c2.txnId = c.txnId := by
    rw [h1] at h2
    exact (Option.some.inj h2).symm
  exact pairwise_key_unique (fun x => x.txnId) hids hc2 hc hcc

theorem debit_credit_paired_witness :
    ∃ c ∈ demoXfer.2.txns,
      pairedWith (debitRowOf (some 9) 1 2 100 1000 201 202) c ∧
      ∀ c2 ∈ demoXfer.2.txns,
        pairedWith (debitRowOf (some 9) 1 2 100 1000 201 202) c2 → c2 = c :=
  debit_credit_paired defaultConfig demoXfer.2 demoXfer_reachable
    (debitRowOf (some 9) 1 2 100 1000 201 202) (by decide) rfl

/-- C8: on a reachable state, an OTP redeemed by a genuine successful
transfer cannot be redeemed again: any later transfer naming the same
(sender, referenceId, code) fails with the OTP error and leaves the
committed state untouched. A transfer attempted at or after the expiry
instant of the OTP of its (sender, referenceId) pair fails with the OTP
error even if that OTP was never used. Every transfer that throws leaves
the whole store, the OTP rows included, unchanged. -/
theorem otp_single_use (cfg : Config) (db : DB) (hreach : Reachable cfg db) :
    (∀ now today uid : Nat, ∀ toEmail : String, ∀ a : Int,
      ∀ code ref : Nat, ∀ key : Option Nat, ∀ dId cId : Nat,
      ∀ r : OpResult, ∀ db2 : DB,
      transfer cfg now today uid toEmail a code ref key dId cId db
        = (.ok r, db2) →
      r.isDuplicate = false →
      ∀ now2 today2 : Nat, ∀ toEmail2 : String, ∀ a2 : Int,
      ∀ key2 : Option Nat, ∀ dId2 cId2 : Nat,
        transfer cfg now2 today2 uid toEmail2 a2 code ref key2 dId2 cId2 db2
          = (.error .invalidOtp, db2))
  ∧ (∀ now today uid : Nat, ∀ toEmail : String, ∀ a : Int,
      ∀ code ref : Nat, ∀ key : Option Nat, ∀ dId cId : Nat, ∀ o : OtpRow,
      o ∈ db.otps → o.userId = uid → o.refId = ref → o.expiresAt ≤ now →
      transfer cfg now today uid toEmail a code ref key dId cId db
        = (.error .invalidOtp, db))
  ∧ (∀ now today uid : Nat, ∀ toEmail : String, ∀ a : Int,
      ∀ code ref : Nat, ∀ key : Option Nat, ∀ dId cId : Nat,
      ∀ e : WErr, ∀ db2 : DB,
      transfer cfg now today uid toEmail a code ref key dId cId db
        = (.error e, db2) → db2 = db) := by
  refine ⟨?_, ?_, ?_⟩
  · intro now today uid toEmail a code ref key dId cId r db2 h hdup
      now2 today2 toEmail2 a2 key2 dId2 cId2
    obtain ⟨o, recip, sw, rcw, ho, hkey, hrecip, hsw, hrw, hbal, hr, hwal,
      hotps, htxns⟩ := transfer_ok_genuine h hdup
    obtain ⟨hom, hou, hor, hoc, hus, hexp⟩ := otpLookup_some ho
    have hrefs : db.otps.Pairwise (fun x y => x.refId ≠ y.refId) :=
      (reachable_inv hreach).2.2.1
    refine transfer_no_otp ?_
    unfold otpLookup
    rw [hotps]
    refine List.find?_eq_none.mpr ?_
    intro x hx
    obtain ⟨y, hy, rfl⟩ := List.mem_map.mp hx
    by_cases hyo : (y.oid == o.oid) = true
    · simp only [hyo, if_true]
      simp
    · have hyof : (y.oid == o.oid) = false := by simpa using hyo
      simp only [hyof, Bool.false_eq_true, if_false]
      intro hcontra
      simp only [Bool.and_eq_true, beq_iff_eq, decide_eq_true_eq] at hcontra
      have hyx : y = o := pairwise_key_unique (fun z => z.refId) hrefs hy hom
        (by show y.refId = o.refId; rw [hcontra.1.1.1.2, hor])
      subst hyx
      simp at hyof
  · intro now today uid toEmail a code ref key dId cId o hom hou hor hexp
    have hrefs : db.otps.Pairwise (fun x y => x.refId ≠ y.refId) :=
      (reachable_inv hreach).2.2.1
    refine transfer_no_otp ?_
    unfold otpLookup
    refine List.find?_eq_none.mpr ?_
    intro x hx hcontra
    simp only [Bool.and_eq_true, beq_iff_eq, decide_eq_true_eq] at hcontra
    have hxo : x = o := pairwise_key_unique (fun z => z.refId) hrefs hx hom
      (by show x.refId = o.refId; rw [hcontra.1.1.1.2, hor])
    subst hxo
    exact absurd hcontra.2 (by omega)
  · intro now today uid toEmail a code ref key dId cId e db2 h
    unfold transfer at h
    split at h
    · rw [Prod.mk.injEq] at h
      exact h.2.symm
    rename_i o ho
    split at h
    · exact absurd (congrArg Prod.fst h) (by simp)
    split at h
    · rw [Prod.mk.injEq] at h
      exact h.2.symm
    rename_i recip hrecip
    split at h
    · split at h
      · rw [Prod.mk.injEq] at h
        exact h.2.symm
      dsimp only at h
      split at h
      · rw [Prod.mk.injEq] at h
        exact h.2.symm
      split at h
      · rw [Prod.mk.injEq] at h
        exact h.2.symm
      split at h
      · rw [Prod.mk.injEq] at h
        exact h.2.symm
      split at h
      · rw [Prod.mk.injEq] at h
        exact h.2.symm
      exact absurd (congrArg Prod.fst h) (by simp)
    · rw [Prod.mk.injEq] at h
      exact h.2.symm

theorem otp_single_use_witness :
    transfer defaultConfig 5 3 1 "b@x" 40 555666 777 (some 77) 203 204
        demoXfer.2 = (.error .invalidOtp, demoXfer.2)
  ∧ transfer defaultConfig 300001 0 1 "b@x" 100 555666 777 none 205 206
        demoOtp = (.error .invalidOtp, demoOtp)
  ∧ (transfer defaultConfig 1 0 1 "b@x" 100 111111 777 none 207 208
        demoOtp).2 = demoOtp := by
  refine ⟨?_, ?_, ?_⟩
  · exact (otp_single_use defaultConfig demoOtp demoOtp_reachable).1
      1 0 1 "b@x" 100 555666 777 (some 9) 201 202
      (xferOkResult 201 100 900) demoXfer.2 (by decide) (by decide)
      5 3 "b@x" 40 (some 77) 203 204
  · exact (otp_single_use defaultConfig demoOtp demoOtp_reachable).2.1
      300001 0 1 "b@x" 100 555666 777 none 205 206
      ⟨1, 1, 555666, 777, false, 300000⟩ (by decide) rfl rfl (by decide)
  · exact (otp_single_use defaultConfig demoOtp demoOtp_reachable).2.2
      1 0 1 "b@x" 100 111111 777 none 207 208 .invalidOtp _ (by decide)

/-- Result record of a successful addMoney. -/
def addOkResult (msg : String) (tid : Nat) (a bal : Int) : OpResult :=
  { success := true, message := msg, txnId := tid
    amount := a, balance := bal, status := .success, isDuplicate := false }

/-- Result record of an addMoney whose gateway reported failure. -/
def addFailResult (msg : String) (tid : Nat) (a bal : Int) : OpResult :=
  { success := false, message := msg, txnId := tid
    amount := a, balance := bal, status := .failed, isDuplicate := false }

/-- When a ledger row already carries the key, checkIdempotency cannot
proceed. -/
theorem checkIdempotency_ne_none {db : DB} {k : Nat} {t : TxnRow}
    (ht : t ∈ db.txns) (hk : t.idemKey = some k) :
    checkIdempotency db (some k) ≠ none := by
  unfold checkIdempotency
  dsimp only
  cases hfind : db.txns.find? (fun x => x.idemKey == some k) with
  | none =>
    exfalso
    have h2 := List.find?_eq_none.mp hfind t ht
    rw [hk] at h2
    simp at h2
  | some u => simp

/-- First addMoney of 200000 with key 11 (entry id 301). -/
def add3one : Except WErr OpResult × DB :=
  addMoney defaultConfig (.success "ok") 0 1 200000 .upi (some 11) 301 demoInit

/-- Second addMoney of 200000 with fresh key 12 (entry id 302); the daily
total is then 400000. -/
def add3two : Except WErr OpResult × DB :=
  addMoney defaultConfig (.success "ok") 0 1 200000 .upi (some 12) 302 add3one.2

/-- Replay of the first request (same key 11, same amount) after the second
completed. -/
def add3replay : Except WErr OpResult × DB :=
  addMoney defaultConfig (.success "ok") 0 1 200000 .upi (some 11) 303 add3two.2

/-- Small addMoney of 1000 with key 21 (entry id 311), and the row its
commit leaves in the ledger. -/
def add3small : Except WErr OpResult × DB :=
  addMoney defaultConfig (.success "ok") 0 1 1000 .upi (some 21) 311 demoInit

def add3smallRow : TxnRow :=
  { pendingAddRow (some 21) 1 1000 0 .upi 311 with
    status := .success, balanceAfter := 1000 }

/-- C3 (amended): replaying addMoney or transfer with a previously used
idempotencyKey inserts zero additional ledger rows and leaves the store
untouched, no matter how often it is repeated; but the replay returns the
cached result referencing the original entry only when the checks that run
before the idempotency check still pass. For addMoney those are the amount
validation and the daily limit check, which sees the daily total the
original already recorded; for transfer it is the OTP lookup, which fails
once the original consumed the OTP, so a transfer replay yields the OTP
error instead of the cached result. -/
theorem idem_replay
    (cfg : Config) (db : DB) (k : Nat) :
    (∀ gw : GatewayOutcome, ∀ today uid : Nat, ∀ a : Int, ∀ m : PayMethod,
      ∀ tid : Nat, (∃ t ∈ db.txns, t.idemKey = some k) →
      (addMoney cfg gw today uid a m (some k) tid db).2 = db)
  ∧ (∀ now today uid : Nat, ∀ toEmail : String, ∀ a : Int,
      ∀ code ref dId cId : Nat, (∃ t ∈ db.txns, t.idemKey = some k) →
      (transfer cfg now today uid toEmail a code ref (some k) dId cId db).2 = db)
  ∧ (∀ gw : GatewayOutcome, ∀ today uid : Nat, ∀ a : Int, ∀ m : PayMethod,
      ∀ tid : Nat, ∀ t : TxnRow,
      db.txns.find? (fun x => x.idemKey == some k) = some t →
      validateAmount cfg a = .ok () →
      checkDailyAddMoneyLimit cfg db uid today a = .ok () →
      addMoney cfg gw today uid a m (some k) tid db
        = (.ok (cachedResultOf t), db)) := by
  refine ⟨?_, ?_, ?_⟩
  · intro gw today uid a m tid hex
    obtain ⟨t, ht, hk⟩ := hex
    unfold addMoney
    split
    · rfl
    split
    · rfl
    split
    · rfl
    · rename_i hnone
      exact absurd hnone (checkIdempotency_ne_none ht hk)
  · intro now today uid toEmail a code ref dId cId hex
    obtain ⟨t, ht, hk⟩ := hex
    unfold transfer
    split
    · rfl
    split
    · rfl
    · rename_i hnone
      exact absurd hnone (checkIdempotency_ne_none ht hk)
  · intro gw today uid a m tid t hfind hv hl
    unfold addMoney
    rw [hv]
    dsimp only
    rw [hl]
    dsimp only
    unfold checkIdempotency
    dsimp only
    rw [hfind]

/-- C3 counterexample: the transfer with key 9 completed (entry 201), yet
the exact replay returns the OTP error, not a result referencing entry 201;
and after two 200000 addMoney calls (total 400000), replaying the first with
its key 11 fails the daily limit check instead of returning cached entry
301, even though a ledger row with key 11 exists. In both cases zero ledger
rows are added. -/
theorem idem_replay_counterexample :
    demoXfer.1 = .ok (xferOkResult 201 100 900)
  ∧ transfer defaultConfig 1 0 1 "b@x" 100 555666 777 (some 9) 203 204
      demoXfer.2 = (.error .invalidOtp, demoXfer.2)
  ∧ add3one.1 = .ok (addOkResult "ok" 301 200000 200000)
  ∧ add3two.1 = .ok (addOkResult "ok" 302 200000 400000)
  ∧ add3replay.1 = .error .dailyAddLimit
  ∧ add3replay.2 = add3two.2
  ∧ add3two.2.txns.any (fun x => x.idemKey == some 11) = true :=
  ⟨by decide, by decide, by decide, by decide, by decide, by decide, by decide⟩

theorem idem_replay_witness :
    (addMoney defaultConfig (.success "ok") 0 1 200000 .upi (some 11) 303
        add3two.2).2 = add3two.2
  ∧ (transfer defaultConfig 1 0 1 "b@x" 100 555666 777 (some 9) 203 204
        demoXfer.2).2 = demoXfer.2
  ∧ addMoney defaultConfig (.success "fresh") 0 1 1000 .upi (some 21) 312
        add3small.2 = (.ok (cachedResultOf add3smallRow), add3small.2) := by
  refine ⟨?_, ?_, ?_⟩
  · exact (idem_replay defaultConfig add3two.2 11).1 (.success "ok") 0 1
      200000 .upi 303
      ⟨{ pendingAddRow (some 11) 1 200000 0 .upi 301 with
          status := .success, balanceAfter := 200000 }, by decide, by decide⟩
  · exact (idem_replay defaultConfig demoXfer.2 9).2.1 1 0 1 "b@x" 100
      555666 777 203 204 ⟨debitRowOf (some 9) 1 2 100 1000 201 202, by decide, by decide⟩
  · exact (idem_replay defaultConfig add3small.2 21).2.2 (.success "fresh")
      0 1 1000 .upi 312 add3smallRow (by decide) (by decide) (by decide)

/-- The FAILED form of the PENDING ADD_MONEY entry. -/
def failedAddRow (key : Option Nat) (uid : Nat) (a cb : Int) (m : PayMethod)
    (tid : Nat) (msg : String) : TxnRow :=
  { pendingAddRow key uid a cb m tid with
    status := .failed, failureReason := some msg }

theorem updateTxnFailed_txns_append {db : DB} {p : TxnRow} {msg : String}
    (hfresh : ∀ u ∈ db.txns, u.txnId ≠ p.txnId) :
    (updateTxnFailed { db with txns := db.txns ++ [p] } p.txnId msg).txns
      = db.txns ++ [{ p with status := .failed, failureReason := some msg }] := by
  unfold updateTxnFailed
  dsimp only
  rw [List.map_append]
  congr 1
  · conv_rhs => rw [← List.map_id db.txns]
    refine List.map_congr_left ?_
    intro u hu
    have hf : (u.txnId == p.txnId) = false := by simpa using hfresh u hu
    simp [hf]
  · simp

/-- C6 (amended): under the pre-state checks of addMoney, when the gateway
reports failure the PENDING entry is transitioned to the terminal FAILED
status with the failure reason and the wallet is untouched; when the
gateway call itself fails exceptionally (for example a timeout), the error
propagates with the wallet untouched but the already committed entry is
left PENDING, not transitioned to FAILED. -/
theorem addMoney_gateway_nonsuccess
    (cfg : Config) (today uid : Nat) (a : Int) (m : PayMethod)
    (key : Option Nat) (tid : Nat) (db db1 : DB) (w : WalletRow)
    (msg : String)
    (hv : validateAmount cfg a = .ok ())
    (hl : checkDailyAddMoneyLimit cfg db uid today a = .ok ())
    (hk : checkIdempotency db key = none)
    (hw : findWallet db uid = some w)
    (hins : insertTxn db (pendingAddRow key uid a w.balance m tid) = .ok db1) :
    (addMoney cfg (.failure msg) today uid a m key tid db
        = (.ok (addFailResult msg tid a w.balance), updateTxnFailed db1 tid msg)
      ∧ (updateTxnFailed db1 tid msg).wallets = db.wallets
      ∧ (updateTxnFailed db1 tid msg).txns
          = db.txns ++ [failedAddRow key uid a w.balance m tid msg])
  ∧ (addMoney cfg .exn today uid a m key tid db = (.error .gatewayDown, db1)
      ∧ db1.wallets = db.wallets
      ∧ db1.txns = db.txns ++ [pendingAddRow key uid a w.balance m tid]
      ∧ (pendingAddRow key uid a w.balance m tid).status = .pending) := by
  obtain ⟨hamt, hfresh, hdb1⟩ := insertTxn_ok hins
  have hmain : ∀ gw : GatewayOutcome,
      addMoney cfg gw today uid a m key tid db
        = addMoneyFinalize gw uid a tid w.balance today db1 := by
    intro gw
    unfold addMoney
    rw [hv]
    dsimp only
    rw [hl]
    dsimp only
    rw [hk]
    dsimp only
    rw [hw]
    dsimp only
    rw [hins]
  refine ⟨⟨?_, ?_, ?_⟩, ?_, ?_, ?_, rfl⟩
  · rw [hmain]
    unfold addMoneyFinalize
    rfl
  · subst hdb1
    simp
  · subst hdb1
    exact updateTxnFailed_txns_append hfresh
  · rw [hmain]
    unfold addMoneyFinalize
    rfl
  · subst hdb1
    rfl
  · subst hdb1
    rfl

/-- State of the PENDING entry committed by atomic unit 1 of the C6 and C7
demonstration (amount 1000 onto the empty wallet of user 1, entry id 100). -/
def c6db1 : DB :=
  { demoInit with txns := [pendingAddRow none 1 1000 0 .upi 100] }

/-- C6 counterexample: when the gateway call fails exceptionally, addMoney
propagates the error and the committed ADD_MONEY entry stays PENDING: it is
not transitioned to the terminal FAILED status. -/
theorem addMoney_gateway_exception_counterexample :
    (addMoney defaultConfig .exn 0 1 1000 .upi none 100 demoInit).1
      = .error .gatewayDown
  ∧ (addMoney defaultConfig .exn 0 1 1000 .upi none 100 demoInit).2.txns.map
      (fun t => t.status) = [.pending]
  ∧ TxnStatus.pending ≠ TxnStatus.failed :=
  ⟨by decide, by decide, by decide⟩

theorem addMoney_gateway_nonsuccess_witness :
    addMoney defaultConfig (.failure "declined") 0 1 1000 .upi none 100
        demoInit
      = (.ok (addFailResult "declined" 100 1000 0),
         updateTxnFailed c6db1 100 "declined")
  ∧ addMoney defaultConfig .exn 0 1 1000 .upi none 100 demoInit
      = (.error .gatewayDown, c6db1) := by
  have h := addMoney_gateway_nonsuccess defaultConfig 0 1 1000 .upi none 100
    demoInit c6db1 ⟨1, 0, "INR"⟩ "declined" (by decide) (by decide) rfl
    (by decide) (by decide)
  exact ⟨h.1.1, h.2.1⟩

/-- C7 (amended): the finalization of addMoney opens a second atomic unit
but never re-reads the wallet: the committed balance equals the balance
remembered from the locked read in atomic unit 1 plus the amount, whatever
balance the wallet row holds at finalize time; accordingly the composed
addMoney commits and reports the unit-1 balance plus the amount. -/
theorem addMoney_finalize_stale_balance :
    (∀ msg : String, ∀ uid : Nat, ∀ a b : Int, ∀ tid today : Nat, ∀ db : DB,
      ∀ w : WalletRow, findWallet db uid = some w → ¬ b + a < 0 →
      ∃ w2 : WalletRow,
        findWallet (addMoneyFinalize (.success msg) uid a tid b today db).2 uid
          = some w2 ∧ w2.balance = b + a)
  ∧ (∀ cfg : Config, ∀ msg : String, ∀ today uid : Nat, ∀ a : Int,
      ∀ m : PayMethod, ∀ key : Option Nat, ∀ tid : Nat, ∀ db db1 : DB,
      ∀ w : WalletRow,
      validateAmount cfg a = .ok () →
      checkDailyAddMoneyLimit cfg db uid today a = .ok () →
      checkIdempotency db key = none →
      findWallet db uid = some w →
      insertTxn db (pendingAddRow key uid a w.balance m tid) = .ok db1 →
      ¬ w.balance + a < 0 →
      (addMoney cfg (.success msg) today uid a m key tid db).1
        = .ok (addOkResult msg tid a (w.balance + a))) := by
  have hfin : ∀ msg : String, ∀ uid : Nat, ∀ a b : Int,
      ∀ tid today : Nat, ∀ db : DB, ¬ b + a < 0 →
      addMoneyFinalize (.success msg) uid a tid b today db
        = (.ok (addOkResult msg tid a (b + a)),
           updateDailyAdded
             (updateTxnSuccess
               { db with wallets := setWalletRows db.wallets uid (b + a) }
               tid (b + a))
             uid today a) := by
    intro msg uid a b tid today db hnn
    unfold addMoneyFinalize
    dsimp only
    have hset : setWalletBalance db uid (b + a)
        = .ok { db with wallets := setWalletRows db.wallets uid (b + a) } := by
      unfold setWalletBalance
      rw [if_neg hnn]
    rw [hset]
    rfl
  constructor
  · intro msg uid a b tid today db w hw hnn
    rw [hfin msg uid a b tid today db hnn]
    refine ⟨{ w with balance := b + a }, ?_, rfl⟩
    unfold findWallet
    simp only [updateDailyAdded_wallets, updateTxnSuccess_wallets]
    exact find_setWalletRows_self hw
  · intro cfg msg today uid a m key tid db db1 w hv hl hk hw hins hnn
    have hmain : addMoney cfg (.success msg) today uid a m key tid db
        = addMoneyFinalize (.success msg) uid a tid w.balance today db1 := by
      unfold addMoney
      rw [hv]
      dsimp only
      rw [hl]
      dsimp only
      rw [hk]
      dsimp only
      rw [hw]
      dsimp only
      rw [hins]
    rw [hmain, hfin msg uid a w.balance tid today db1 hnn]

/-- Wallet of user 1 held 1000 when atomic unit 1 of an addMoney of 100 ran
(the PENDING entry with id 400 records it); by finalize time the wallet row
holds 1500 because the wallet is not locked while the gateway call is in
flight and another operation committed in between. -/
def c7before : DB :=
  { users := [⟨1, "a@x", true⟩]
    wallets := [⟨1, 1500, "INR"⟩]
    txns := [pendingAddRow none 1 100 1000 .upi 400]
    otps := [], limits := [] }

/-- C7 counterexample: finalize commits the remembered balance 1000 plus
100, producing 1100 and erasing the concurrent change: the committed
balance differs from the wallet balance at finalize time plus the amount,
1600. -/
theorem addMoney_finalize_counterexample :
    (findWallet c7before 1).map (fun w => w.balance) = some 1500
  ∧ (findWallet (addMoneyFinalize (.success "ok") 1 100 400 1000 0
      c7before).2 1).map (fun w => w.balance) = some 1100
  ∧ (1100 : Int) ≠ 1500 + 100 :=
  ⟨by decide, by decide, by decide⟩

theorem addMoney_finalize_stale_balance_witness :
    (∃ w2 : WalletRow,
      findWallet (addMoneyFinalize (.success "ok") 1 100 400 1000 0
        c7before).2 1 = some w2 ∧ w2.balance = 1000 + 100)
  ∧ (addMoney defaultConfig (.success "ok") 0 1 1000 .upi none 100
      demoInit).1 = .ok (addOkResult "ok" 100 1000 (0 + 1000)) := by
  refine ⟨?_, ?_⟩
  · exact addMoney_finalize_stale_balance.1 "ok" 1 100 1000 400 0 c7before
      ⟨1, 1500, "INR"⟩ (by decide) (by decide)
  · exact addMoney_finalize_stale_balance.2 defaultConfig "ok" 0 1 1000 .upi
      none 100 demoInit c6db1 ⟨1, 0, "INR"⟩ (by decide) (by decide) rfl
      (by decide) (by decide) (by decide)

/-- Configuration of the C9 scenario: the daily add-money ceiling keeps its
default 500000 and the per-transaction maximum is raised to 300000 so that
the 300000 deposits of the scenario pass amount validation at all. -/
def cfg9 : Config := { defaultConfig with maxTxn := 300000 }

/-- First addMoney of 300000 (key 5, entry id 300). -/
def add9one : Except WErr OpResult × DB :=
  addMoney cfg9 (.success "ok") 0 1 300000 .upi (some 5) 300 demoInit

/-- Second sequential addMoney of 300000 on the same day (key 6). -/
def add9two : Except WErr OpResult × DB :=
  addMoney cfg9 (.success "ok") 0 1 300000 .upi (some 6) 301 add9one.2

/-- C9 counterexample: under the default configuration the claimed scenario
cannot even start: the first addMoney of 300000 is rejected by
validateAmount against the per-transaction maximum of 200000, before any
write, so it does not succeed as the claim states. -/
theorem daily_limit_scenario_counterexample :
    (addMoney defaultConfig (.success "ok") 0 1 300000 .upi (some 5) 300
      demoInit).1 = .error .aboveMax
  ∧ (addMoney defaultConfig (.success "ok") 0 1 300000 .upi (some 5) 300
      demoInit).2 = demoInit :=
  ⟨by decide, by decide⟩

/-- C9 (amended): with the per-transaction maximum configured to 300000 and
the daily add-money ceiling 500000, two sequential addMoney calls of 300000
on the same day behave as claimed: the first succeeds (gateway success) and
records a daily total of 300000; the second fails with the daily limit
error before any write, leaving the committed state unchanged, and the
recorded daily total remains 300000 rather than 600000. -/
theorem daily_limit_scenario :
    add9one.1 = .ok (addOkResult "ok" 300 300000 300000)
  ∧ (dailyRow add9one.2 1 0).map (fun r => r.totalAdded) = some 300000
  ∧ add9two.1 = .error .dailyAddLimit
  ∧ add9two.2 = add9one.2
  ∧ (dailyRow add9two.2 1 0).map (fun r => r.totalAdded) = some 300000 :=
  ⟨by decide, by decide, by decide, by decide, by decide⟩

theorem insertTxn_ok_of {db : DB} {t : TxnRow} (h1 : 0 < t.amount)
    (h2 : ∀ u ∈ db.txns, u.txnId ≠ t.txnId) (h3 : t.idemKey = none) :
    insertTxn db t = .ok { db with txns := db.txns ++ [t] } := by
  have c2 : (db.txns.any (fun u => u.txnId == t.txnId)) = false := by
    rw [List.any_eq_false]
    intro u hu
    simpa using h2 u hu
  have c3 : (t.idemKey.isSome && db.txns.any (fun u => u.idemKey == t.idemKey))
      = false := by
    rw [h3]
    rfl
  unfold insertTxn
  rw [if_neg (by simp [h1]), if_neg (by simp [c2]), if_neg (by simp [c3])]

/-- C10: the service-level transfer applies no amount bound and no
validateAmount call of its own: with a valid OTP, a resolvable recipient,
fresh entry ids and sufficient balance, any positive amount below the
configured minimum is transferred successfully; generateTransferOTP rejects
the same amount at issuance through validateAmount, and the HTTP route
bound on POST /transfer rejects it too, so amount validation for transfers
happens only at those two places. -/
theorem transfer_skips_amount_validation
    (now today uid : Nat) (toEmail : String) (a : Int)
    (code ref dId cId : Nat) (db : DB) (o : OtpRow) (recip : UserRow)
    (sw rcw : WalletRow)
    (hotp : otpLookup db now uid ref code = some o)
    (hrecip : findUserByEmail db toEmail = some recip)
    (hsw : findWallet db uid = some sw)
    (hrw : findWallet db recip.id = some rcw)
    (hpos : 0 < a) (hmin : a < defaultConfig.minTxn)
    (hsb : a ≤ sw.balance) (hrb : 0 ≤ rcw.balance)
    (hd : ∀ t ∈ db.txns, t.txnId ≠ dId)
    (hc : ∀ t ∈ db.txns, t.txnId ≠ cId)
    (hdc : dId ≠ cId) :
    (transfer defaultConfig now today uid toEmail a code ref none dId cId
        db).1 = .ok (xferOkResult dId a (sw.balance - a))
  ∧ (∀ code2 ref2 : Nat,
      (generateTransferOTP defaultConfig now today uid toEmail a code2 ref2
        db).1 = .error .belowMin)
  ∧ routeTransferAmountOk a = false := by
  have hminN : a < 100 := hmin
  refine ⟨?_, ?_, ?_⟩
  · unfold transfer
    rw [hotp]
    try dsimp only
    rw [hrecip]
    try dsimp only
    rw [hsw, hrw]
    try dsimp only
    rw [if_neg (by omega : ¬ sw.balance < a)]
    try dsimp only
    have hset1 : setWalletBalance db uid (sw.balance - a)
        = .ok { db with wallets := setWalletRows db.wallets uid (sw.balance - a) } := by
      unfold setWalletBalance
      rw [if_neg (by omega)]
    rw [hset1]
    try dsimp only
    have hset2 : setWalletBalance
        { db with wallets := setWalletRows db.wallets uid (sw.balance - a) }
        recip.id (rcw.balance + a)
        = .ok { db with wallets := setWalletRows (setWalletRows db.wallets uid (sw.balance - a)) recip.id (rcw.balance + a) } := by
      unfold setWalletBalance
      rw [if_neg (by omega)]
    rw [hset2]
    try dsimp only
    rw [insertTxn_ok_of hpos hd rfl]
    try dsimp only
    have hc2 : ∀ u ∈ db.txns
        ++ [debitRowOf none uid recip.id a sw.balance dId cId],
        u.txnId ≠ cId := by
      intro u hu
      rcases List.mem_append.mp hu with hu | hu
      · exact hc u hu
      · rw [List.mem_singleton] at hu
        subst hu
        exact hdc
    rw [insertTxn_ok_of hpos hc2 rfl]
    rfl
  · intro code2 ref2
    unfold generateTransferOTP
    have hv : validateAmount defaultConfig a = .error .belowMin := by
      unfold validateAmount
      rw [if_pos hmin]
    rw [hv]
  · unfold routeTransferAmountOk
    rw [decide_eq_false (by omega : ¬ (100 : Int) ≤ a)]
    rfl

theorem transfer_skips_amount_validation_witness :
    (transfer defaultConfig 1 0 1 "b@x" 50 555666 777 none 211 212
        demoOtp).1 = .ok (xferOkResult 211 50 950)
  ∧ (∀ code2 ref2 : Nat,
      (generateTransferOTP defaultConfig 1 0 1 "b@x" 50 code2 ref2
        demoOtp).1 = .error .belowMin)
  ∧ routeTransferAmountOk 50 = false :=
  transfer_skips_amount_validation 1 0 1 "b@x" 50 555666 777 211 212 demoOtp
    ⟨1, 1, 555666, 777, false, 300000⟩ ⟨2, "b@x", true⟩
    ⟨1, 1000, "INR"⟩ ⟨2, 0, "INR"⟩
    (by decide) (by decide) (by decide) (by decide) (by decide) (by decide)
    (by decide) (by decide) (by decide) (by decide) (by decide)
